import Mathlib

/-!
Shallow embedding of the AURA orchestrator (src/orchestrator-agent.js):
the `GestureInterpreter`, the `SafetyValidator` and the
`OrchestratorAgent` frame-processing state machine, together with proofs
of the specified properties.

Modelling conventions:
* JS numbers on the data path (landmark coordinates, velocities,
  thresholds) are modelled as `ℚ`; timestamps (integral milliseconds) as `ℤ`.
* A JS field that may be `undefined`/`null` is an `Option`.
* The JS idiom `t || Date.now()` (a zero or missing timestamp is falsy and
  falls back to the wall clock) is `tsOr t now`, with the current wall
  clock threaded as an explicit `now : ℤ` parameter.
* Mutation of `this` is explicit state passing: each stateful method
  returns its result together with the updated state.
-/

namespace SIG

inductive SystemStatus where
  | ACTIVE
  | IDLE
  | ERROR
deriving DecidableEq, Repr

inductive ConfidenceLevel where
  | LOW
  | MEDIUM
  | HIGH
deriving DecidableEq, Repr

inductive ActionState where
  | NONE
  | READY
  | EXECUTED
  | COOLDOWN
deriving DecidableEq, Repr

inductive GestureType where
  | NONE
  | CLOSED_FIST
  | SWIPE_LEFT
  | SWIPE_RIGHT
  | SWIPE_UP
  | SWIPE_DOWN
deriving DecidableEq, Repr

inductive ValidationReason where
  | STABLE
  | LOW_CONFIDENCE
  | COOLDOWN_ACTIVE
  | CAMERA_INVALID
  | GESTURE_UNSTABLE
deriving DecidableEq, Repr

/-- One MediaPipe landmark point `{x, y, z}`.  A missing `z` is modelled as
`0`, matching the JS reads `(p.z || 0)`. -/
structure Point where
  x : ℚ
  y : ℚ
  z : ℚ
deriving DecidableEq, Repr

/-- An entry of `this.landmarkHistory`: the stored points plus the resolved
timestamp. -/
structure HistEntry where
  points : List Point
  timestamp : ℤ
deriving DecidableEq, Repr

/-- The argument object of `GestureInterpreter.update`:
`{ points, timestamp }`.  `points` is `none` when the field is missing or
not an array; a missing timestamp is encoded as `0` (both are falsy in JS
and behave identically under `t || Date.now()`). -/
structure FramePacket where
  points : Option (List Point)
  timestamp : ℤ
deriving DecidableEq, Repr

/-- The mutable state of a `GestureInterpreter` instance. -/
structure InterpState where
  landmarkHistory : List HistEntry
  fistStartTime : Option ℤ
  lastGesture : GestureType
deriving DecidableEq, Repr

/-- `{ gesture, confidence, isStable }` as returned by `update`. -/
structure GestureResult where
  gesture : GestureType
  confidence : ConfidenceLevel
  isStable : Bool
deriving DecidableEq, Repr

/-- `t || now`: models `landmarks.timestamp || Date.now()` (`0` is falsy). -/
def tsOr (t now : ℤ) : ℤ := if t = 0 then now else t

namespace GestureInterpreter

/-- `this.FIST_STABILITY_THRESHOLD_MS = 500`. -/
def FIST_STABILITY_THRESHOLD_MS : ℤ := 500

/-- `this.SWIPE_TIME_WINDOW_MS = 300`. -/
def SWIPE_TIME_WINDOW_MS : ℤ := 300

/-- `this.SWIPE_VELOCITY_THRESHOLD = 0.15` (units/sec). -/
def SWIPE_VELOCITY_THRESHOLD : ℚ := 0.15

/-- `this.CURL_THRESHOLD = 0.15`. -/
def CURL_THRESHOLD : ℚ := 0.15

/-- `this.HISTORY_SIZE = 30`. -/
def HISTORY_SIZE : ℕ := 30

/-- The constructor state: empty history, no dwell timer, last gesture NONE. -/
def initialInterpState : InterpState :=
  { landmarkHistory := [], fistStartTime := none, lastGesture := GestureType.NONE }

/-- `this._noneResult()`. -/
def noneResult : GestureResult :=
  { gesture := GestureType.NONE, confidence := ConfidenceLevel.LOW, isStable := false }

/-- Default entry used for guarded list reads (never reached under the
length guards that precede each access in the source). -/
def defaultEntry : HistEntry := { points := [], timestamp := 0 }

/-- Guarded read `points[i]` (the source only indexes inside a proven
length bound, so the default is never hit there). -/
def pt (points : List Point) (i : ℕ) : Point := points.getD i ⟨0, 0, 0⟩

/-- `_calculateFingerCurls(landmarks)`, with one representation change:
the JS computes `Math.sqrt` of the squared displacement of each fingertip
from the palm centroid and every later use compares the result with a
nonnegative threshold; we keep the squared displacement and compare with
the squared threshold, which is equivalent (`curlSq_lt_sq_iff_sqrt_lt`).
Returns `none` when fewer than 21 points are supplied. -/
def calculateFingerCurlsSq (points : List Point) : Option (List ℚ) :=
  if points.length < 21 then none
  else
    let palmIndices : List ℕ := [0, 5, 9, 13, 17]
    let palmX := (palmIndices.map (fun i => (pt points i).x)).sum / 5
    let palmY := (palmIndices.map (fun i => (pt points i).y)).sum / 5
    let palmZ := (palmIndices.map (fun i => (pt points i).z)).sum / 5
    let fingertipIndices : List ℕ := [4, 8, 12, 16, 20]
    some (fingertipIndices.map (fun i =>
      ((pt points i).x - palmX) ^ 2
        + ((pt points i).y - palmY) ^ 2
        + ((pt points i).z - palmZ) ^ 2))

/-- `_detectClosedFist(landmarks)` over explicit state.  Input is the
(non-null) points plus the raw timestamp of the frame. -/
def detectClosedFist (points : List Point) (timestamp now : ℤ)
    (st : InterpState) : GestureResult × InterpState :=
  match calculateFingerCurlsSq points with
  | none => (noneResult, st)
  | some curlScores =>
    if ¬ (∀ s ∈ curlScores, s < CURL_THRESHOLD ^ 2) then
      (noneResult, { st with fistStartTime := none })
    else
      let currentTime := tsOr timestamp now
      match st.fistStartTime with
      | none =>
        ({ gesture := GestureType.CLOSED_FIST, confidence := ConfidenceLevel.LOW,
           isStable := false },
         { st with fistStartTime := some currentTime })
      | some start =>
        let durationMs := currentTime - start
        if durationMs ≥ FIST_STABILITY_THRESHOLD_MS then
          ({ gesture := GestureType.CLOSED_FIST, confidence := ConfidenceLevel.HIGH,
             isStable := true },
           { st with lastGesture := GestureType.CLOSED_FIST })
        else if durationMs ≥ FIST_STABILITY_THRESHOLD_MS / 2 then
          ({ gesture := GestureType.CLOSED_FIST, confidence := ConfidenceLevel.MEDIUM,
             isStable := false }, st)
        else
          ({ gesture := GestureType.CLOSED_FIST, confidence := ConfidenceLevel.LOW,
             isStable := false }, st)

/-- `_getPalmCenter(points)`. -/
def getPalmCenter (points : List Point) : Option Point :=
  if points.length < 18 then none
  else
    let palmIndices : List ℕ := [0, 5, 9, 13, 17]
    some { x := (palmIndices.map (fun i => (pt points i).x)).sum / 5,
           y := (palmIndices.map (fun i => (pt points i).y)).sum / 5,
           z := (palmIndices.map (fun i => (pt points i).z)).sum / 5 }

/-- `_calculateSwipeConfidence(dominantVel, secondaryVel)`. -/
def calculateSwipeConfidence (dominantVel secondaryVel : ℚ) : ConfidenceLevel :=
  if dominantVel > SWIPE_VELOCITY_THRESHOLD * 3 then
    if secondaryVel < dominantVel * 0.3 then ConfidenceLevel.HIGH
    else ConfidenceLevel.MEDIUM
  else if dominantVel > SWIPE_VELOCITY_THRESHOLD * 2 then ConfidenceLevel.MEDIUM
  else ConfidenceLevel.LOW

/-- Lines 189–217 of `_detectSwipe`: history-size guards, the trailing
time window, palm centers of its first and last frame, and the velocity
computation.  `none` when any guard fails. -/
def swipeVelocities (history : List HistEntry) : Option (ℚ × ℚ) :=
  if history.length < 5 then none
  else
    let currentTime := (history.getLastD defaultEntry).timestamp
    let recentFrames := history.filter
      (fun lm => currentTime - lm.timestamp ≤ SWIPE_TIME_WINDOW_MS)
    if recentFrames.length < 3 then none
    else
      match getPalmCenter (recentFrames.headD defaultEntry).points,
            getPalmCenter (recentFrames.getLastD defaultEntry).points with
      | some startPalm, some endPalm =>
        let timeDelta : ℚ :=
          (((recentFrames.getLastD defaultEntry).timestamp
            - (recentFrames.headD defaultEntry).timestamp : ℤ) : ℚ) / 1000
        if timeDelta ≤ 0 then none
        else some ((endPalm.x - startPalm.x) / timeDelta,
                   (endPalm.y - startPalm.y) / timeDelta)
      | _, _ => none

/-- `_detectSwipe()` over explicit state: threshold and dominance checks,
direction selection, confidence tiering, and the history clearing on a
detected swipe. -/
def detectSwipe (st : InterpState) : GestureResult × InterpState :=
  match swipeVelocities st.landmarkHistory with
  | none => (noneResult, st)
  | some (velocityX, velocityY) =>
    let absVelX := |velocityX|
    let absVelY := |velocityY|
    if absVelX < SWIPE_VELOCITY_THRESHOLD ∧ absVelY < SWIPE_VELOCITY_THRESHOLD then
      (noneResult, st)
    else if absVelX > absVelY * 1.5 then
      if absVelX < SWIPE_VELOCITY_THRESHOLD then (noneResult, st)
      else
        let gesture := if velocityX > 0 then GestureType.SWIPE_RIGHT
                       else GestureType.SWIPE_LEFT
        ({ gesture := gesture,
           confidence := calculateSwipeConfidence absVelX absVelY,
           isStable := true },
         { st with lastGesture := gesture, landmarkHistory := [] })
    else if absVelY > absVelX * 1.5 then
      if absVelY < SWIPE_VELOCITY_THRESHOLD then (noneResult, st)
      else
        let gesture := if velocityY > 0 then GestureType.SWIPE_DOWN
                       else GestureType.SWIPE_UP
        ({ gesture := gesture,
           confidence := calculateSwipeConfidence absVelY absVelX,
           isStable := true },
         { st with lastGesture := gesture, landmarkHistory := [] })
    else
      (noneResult, st)

/-- `update(landmarks)`: the input guard, the history push (bounded at
`HISTORY_SIZE` by dropping the oldest entry), static detection first,
then dynamic detection, then the reset-and-NONE fallthrough. -/
def update (landmarks : Option FramePacket) (now : ℤ) (st : InterpState) :
    GestureResult × InterpState :=
  match landmarks with
  | none =>
    (noneResult, { st with fistStartTime := none, lastGesture := GestureType.NONE })
  | some lm =>
    match lm.points with
    | none =>
      (noneResult, { st with fistStartTime := none, lastGesture := GestureType.NONE })
    | some pts =>
      if pts.length < 21 then
        (noneResult, { st with fistStartTime := none, lastGesture := GestureType.NONE })
      else
        let entry : HistEntry := { points := pts, timestamp := tsOr lm.timestamp now }
        let pushed := st.landmarkHistory ++ [entry]
        let bounded := if pushed.length > HISTORY_SIZE then pushed.tail else pushed
        let st1 := { st with landmarkHistory := bounded }
        let fist := detectClosedFist pts lm.timestamp now st1
        if fist.1.gesture ≠ GestureType.NONE then fist
        else
          let swipe := detectSwipe fist.2
          if swipe.1.gesture ≠ GestureType.NONE then swipe
          else
            (noneResult,
             { swipe.2 with fistStartTime := none, lastGesture := GestureType.NONE })

end GestureInterpreter

-- ===========================================================================
-- SafetyValidator
-- ===========================================================================

/-- The argument object of `SafetyValidator.validate`:
`{ gesture, confidence, isStable, cooldownActive, cameraValid }`. -/
structure SafetyInput where
  gesture : GestureType
  confidence : ConfidenceLevel
  isStable : Bool
  cooldownActive : Bool
  cameraValid : Bool
deriving DecidableEq, Repr

/-- `{ approved, reason }`. -/
structure ValidationResult where
  approved : Bool
  reason : ValidationReason
deriving DecidableEq, Repr

namespace SafetyValidator

/-- `SafetyValidator.validate(input)`: the fixed-priority check chain. -/
def validate (input : SafetyInput) : ValidationResult :=
  if ¬ input.cameraValid then
    { approved := false, reason := ValidationReason.CAMERA_INVALID }
  else if input.cooldownActive then
    { approved := false, reason := ValidationReason.COOLDOWN_ACTIVE }
  else if input.confidence ≠ ConfidenceLevel.HIGH then
    { approved := false, reason := ValidationReason.LOW_CONFIDENCE }
  else if ¬ input.isStable then
    { approved := false, reason := ValidationReason.GESTURE_UNSTABLE }
  else
    { approved := true, reason := ValidationReason.STABLE }

end SafetyValidator

-- ===========================================================================
-- OrchestratorAgent
-- ===========================================================================

/-- The canonical published `SystemState` object. -/
structure SystemState where
  systemStatus : SystemStatus
  detectedGesture : GestureType
  confidence : ConfidenceLevel
  safetyApproved : Bool
  actionState : ActionState
  userMessage : String
deriving DecidableEq, Repr

/-- The message payload from the Vision Agent.  `handDetected` is `none`
when the field is missing or not a boolean (`typeof !== 'boolean'`);
`landmarks` is `none` when missing or not an array (an empty array is a
present array and stays `some []`). -/
structure VisionData where
  handDetected : Option Bool
  landmarks : Option (List Point)
  timestamp : ℤ
deriving DecidableEq, Repr

/-- The return object of `_executeAction`. -/
structure ActionResult where
  actionExecuted : Bool
  actionType : String
  message : String
deriving DecidableEq, Repr

/-- The orchestrator's mutable fields that the frame pipeline touches. -/
structure OrchState where
  interp : InterpState
  cooldownActive : Bool
  isMuted : Bool
deriving DecidableEq, Repr

/-- Everything one `processVisionData` call produces: the published
`SystemState`, the updated orchestrator state, and whether an action was
executed on this frame. -/
structure Outcome where
  state : SystemState
  orch : OrchState
  actionFired : Bool
deriving DecidableEq, Repr

namespace OrchestratorAgent

open GestureInterpreter SafetyValidator

/-- `this.cooldownDuration = 1500` ms. -/
def cooldownDuration : ℤ := 1500

/-- The constructor state of the orchestrator. -/
def initialOrchState : OrchState :=
  { interp := initialInterpState, cooldownActive := false, isMuted := false }

/-- `_createIdleState()`. -/
def createIdleState : SystemState :=
  { systemStatus := SystemStatus.IDLE,
    detectedGesture := GestureType.NONE,
    confidence := ConfidenceLevel.LOW,
    safetyApproved := false,
    actionState := ActionState.NONE,
    userMessage := "No hand detected" }

/-- `_createActiveState(params)`.  Every call site supplies each field, so
the JS `params.field || default` fallbacks (which only trigger on falsy
values, and the enum strings are all truthy) reduce to the identity. -/
def createActiveState (detectedGesture : GestureType) (confidence : ConfidenceLevel)
    (safetyApproved : Bool) (actionState : ActionState) (userMessage : String) :
    SystemState :=
  { systemStatus := SystemStatus.ACTIVE,
    detectedGesture := detectedGesture,
    confidence := confidence,
    safetyApproved := safetyApproved,
    actionState := actionState,
    userMessage := userMessage }

/-- `_createErrorState(message)`: an empty message is falsy in JS and
falls back to the generic safe message. -/
def createErrorState (message : String) : SystemState :=
  { systemStatus := SystemStatus.ERROR,
    detectedGesture := GestureType.NONE,
    confidence := ConfidenceLevel.LOW,
    safetyApproved := false,
    actionState := ActionState.NONE,
    userMessage := if message = "" then "System paused due to uncertainty" else message }

/-- `_getReasonMessage(reason)`. -/
def getReasonMessage (reason : ValidationReason) : String :=
  match reason with
  | ValidationReason.CAMERA_INVALID => "Camera unavailable"
  | ValidationReason.COOLDOWN_ACTIVE => "Cooldown active"
  | ValidationReason.LOW_CONFIDENCE => "Gesture unclear"
  | ValidationReason.GESTURE_UNSTABLE => "Hold gesture steady"
  | _ => "Waiting..."

/-- `_validateVisionData(data)`: rejects a missing payload, a missing or
non-boolean `handDetected`, and — when `handDetected` is `true` — a
missing or non-array `landmarks`.  An empty array is an array, hence
accepted (in JS `![]` is `false`). -/
def validateVisionData (data : Option VisionData) : Bool :=
  match data with
  | none => false
  | some d =>
    match d.handDetected with
    | none => false
    | some hd => ¬ (hd ∧ d.landmarks = none)

/-- `_executeAction(gesture)`: returns the action result together with the
updated `isMuted` flag (mutated only on CLOSED_FIST). -/
def executeAction (gesture : GestureType) (isMuted : Bool) : ActionResult × Bool :=
  match gesture with
  | GestureType.CLOSED_FIST =>
    let muted := ¬ isMuted
    ({ actionExecuted := true,
       actionType := if muted then "MUTE" else "UNMUTE",
       message := if muted then "Muted" else "Unmuted" }, muted)
  | GestureType.SWIPE_LEFT =>
    ({ actionExecuted := true, actionType := "NAVIGATE_LEFT",
       message := "Navigated Left" }, isMuted)
  | GestureType.SWIPE_RIGHT =>
    ({ actionExecuted := true, actionType := "NAVIGATE_RIGHT",
       message := "Navigated Right" }, isMuted)
  | GestureType.SWIPE_UP =>
    ({ actionExecuted := true, actionType := "NAVIGATE_UP",
       message := "Navigated Up" }, isMuted)
  | GestureType.SWIPE_DOWN =>
    ({ actionExecuted := true, actionType := "NAVIGATE_DOWN",
       message := "Navigated Down" }, isMuted)
  | GestureType.NONE =>
    ({ actionExecuted := false, actionType := "NONE", message := "No action" }, isMuted)

/-- The synchronous effect of `_startCooldown()` on the pipeline state:
`this.cooldownActive = true` (the two timers it schedules are modelled by
`cooldownActiveAt`). -/
def startCooldown (st : OrchState) : OrchState :=
  { st with cooldownActive := true }

/-- Timer semantics of `_startCooldown`: the flag set at `start` is
cleared by the `setTimeout` callback exactly `cooldownDuration` ms later,
so at wall-clock `now` the window opened at `start` is active iff
`start ≤ now < start + cooldownDuration`. -/
def cooldownActiveAt (start now : ℤ) : Bool :=
  decide (start ≤ now ∧ now < start + cooldownDuration)

/-- `processVisionData(visionData)` — the try-block body (steps 1–6):
shape validation, the IDLE rule, gesture interpretation, safety
validation, the defensive cooldown re-check, and action execution with
cooldown start. -/
def processVisionData (visionData : Option VisionData) (now : ℤ) (st : OrchState) :
    Outcome :=
  match visionData with
  | none => { state := createErrorState "Invalid vision data", orch := st,
              actionFired := false }
  | some d =>
    match d.handDetected with
    | none => { state := createErrorState "Invalid vision data", orch := st,
                actionFired := false }
    | some hd =>
      if hd ∧ d.landmarks = none then
        { state := createErrorState "Invalid vision data", orch := st,
          actionFired := false }
      else if ¬ hd then
        { state := createIdleState, orch := st, actionFired := false }
      else
        let upd := GestureInterpreter.update
          (some { points := d.landmarks, timestamp := d.timestamp }) now st.interp
        let gestureResult := upd.1
        let st1 : OrchState := { st with interp := upd.2 }
        if gestureResult.gesture = GestureType.NONE ∨
            gestureResult.confidence ≠ ConfidenceLevel.HIGH then
          { state := createActiveState gestureResult.gesture gestureResult.confidence
              false ActionState.NONE "Gesture unclear",
            orch := st1, actionFired := false }
        else
          let safetyResult := validate
            { gesture := gestureResult.gesture,
              confidence := gestureResult.confidence,
              isStable := gestureResult.isStable,
              cooldownActive := st.cooldownActive,
              cameraValid := true }
          if ¬ safetyResult.approved then
            { state := createActiveState gestureResult.gesture gestureResult.confidence
                false
                (if st.cooldownActive then ActionState.COOLDOWN else ActionState.NONE)
                (getReasonMessage safetyResult.reason),
              orch := st1, actionFired := false }
          else if st.cooldownActive then
            { state := createActiveState gestureResult.gesture gestureResult.confidence
                false ActionState.COOLDOWN "Cooldown active",
              orch := st1, actionFired := false }
          else
            let action := executeAction gestureResult.gesture st.isMuted
            let actionResult := action.1
            let st2 : OrchState := { st1 with isMuted := action.2 }
            let st3 := if actionResult.actionExecuted then startCooldown st2 else st2
            { state := createActiveState gestureResult.gesture gestureResult.confidence
                true
                (if actionResult.actionExecuted then ActionState.EXECUTED
                 else ActionState.READY)
                actionResult.message,
              orch := st3, actionFired := actionResult.actionExecuted }

/-- What an exception escaping the try body carries to the catch: the JS
error (only logged by the catch), the orchestrator's mutable fields as
already mutated at the moment of the throw (the catch undoes nothing),
and whether `_executeAction` had already run on this frame. -/
structure Thrown where
  msg : String
  orch : OrchState
  actionFired : Bool
deriving DecidableEq, Repr

/-- Steps 1–6 (the try body, lines 376–464) with the one internal call
that runs arbitrary user code modelled as fallible: `emitCooldownStart`
is the behaviour of the listeners that `_emitEvent` invokes from
`_startCooldown` (line 544), which runs only after `_executeAction` has
returned and `this.cooldownActive` has been set; `Except.error e` is a
listener throwing.  The exception propagates out of the body carrying the
orchestrator fields as mutated so far — the mute toggle, the interpreter
update and the cooldown flag are not rolled back — together with the fact
that the action already executed.  (The `stateChange` emission inside
`_broadcastState` behaves the same way and is not modelled separately.)
With `emitCooldownStart = Except.ok ()` this body never throws and agrees
with `processVisionData`. -/
def processVisionDataBody (emitCooldownStart : Except String Unit)
    (visionData : Option VisionData) (now : ℤ) (st : OrchState) :
    Except Thrown Outcome :=
  match visionData with
  | none =>
    Except.ok { state := createErrorState "Invalid vision data", orch := st,
                actionFired := false }
  | some d =>
    match d.handDetected with
    | none =>
      Except.ok { state := createErrorState "Invalid vision data", orch := st,
                  actionFired := false }
    | some hd =>
      if hd ∧ d.landmarks = none then
        Except.ok { state := createErrorState "Invalid vision data", orch := st,
                    actionFired := false }
      else if ¬ hd then
        Except.ok { state := createIdleState, orch := st, actionFired := false }
      else
        let upd := GestureInterpreter.update
          (some { points := d.landmarks, timestamp := d.timestamp }) now st.interp
        let gestureResult := upd.1
        let st1 : OrchState := { st with interp := upd.2 }
        if gestureResult.gesture = GestureType.NONE ∨
            gestureResult.confidence ≠ ConfidenceLevel.HIGH then
          Except.ok
            { state := createActiveState gestureResult.gesture
                gestureResult.confidence false ActionState.NONE "Gesture unclear",
              orch := st1, actionFired := false }
        else
          let safetyResult := validate
            { gesture := gestureResult.gesture,
              confidence := gestureResult.confidence,
              isStable := gestureResult.isStable,
              cooldownActive := st.cooldownActive,
              cameraValid := true }
          if ¬ safetyResult.approved then
            Except.ok
              { state := createActiveState gestureResult.gesture
                  gestureResult.confidence false
                  (if st.cooldownActive then ActionState.COOLDOWN else ActionState.NONE)
                  (getReasonMessage safetyResult.reason),
                orch := st1, actionFired := false }
          else if st.cooldownActive then
            Except.ok
              { state := createActiveState gestureResult.gesture
                  gestureResult.confidence false ActionState.COOLDOWN "Cooldown active",
                orch := st1, actionFired := false }
          else
            let action := executeAction gestureResult.gesture st.isMuted
            let st2 : OrchState := { st1 with isMuted := action.2 }
            if action.1.actionExecuted then
              match emitCooldownStart with
              | Except.error e =>
                Except.error { msg := e, orch := startCooldown st2, actionFired := true }
              | Except.ok _ =>
                Except.ok
                  { state := createActiveState gestureResult.gesture
                      gestureResult.confidence true ActionState.EXECUTED
                      action.1.message,
                    orch := startCooldown st2, actionFired := true }
            else
              Except.ok
                { state := createActiveState gestureResult.gesture
                    gestureResult.confidence true ActionState.READY action.1.message,
                  orch := st2, actionFired := false }

/-- The try/catch wrapper around steps 1–6 (lines 466–470): a body that
completes yields its outcome; a body that throws reaches the catch, which
only logs the error and replaces the published state with the fail-safe
ERROR state — the mutations carried by the throw, including an already
executed action, persist. -/
def processVisionDataCaught (body : Except Thrown Outcome) : Outcome :=
  match body with
  | Except.ok o => o
  | Except.error t =>
    { state := createErrorState "System paused due to uncertainty",
      orch := t.orch, actionFired := t.actionFired }

end OrchestratorAgent

-- ===========================================================================
-- Concrete fixtures (used by witness theorems)
-- ===========================================================================

namespace Fixtures

open GestureInterpreter OrchestratorAgent

/-- Drive `update` over a list of frames, as successive calls on the same
interpreter instance. -/
def runFrames (frames : List FramePacket) (now : ℤ) (st : InterpState) :
    GestureResult × InterpState :=
  frames.foldl (fun acc f => update (some f) now acc.2) (noneResult, st)

/-- Fingertip landmark indices (thumb, index, middle, ring, pinky). -/
def tipIndices : List ℕ := [4, 8, 12, 16, 20]

/-- A 21-point hand whose palm landmarks sit at `(bx, by0, 0)` and whose
fingertips are offset by one unit on x, so the pose never qualifies as a
closed fist. -/
def openHandPts (bx by0 : ℚ) : List Point :=
  (List.range 21).map (fun j =>
    if j ∈ tipIndices then ⟨bx + 1, by0, 0⟩ else ⟨bx, by0, 0⟩)

/-- All 21 landmarks at the origin: every curl score is `0`. -/
def fistPts : List Point := List.replicate 21 ⟨0, 0, 0⟩

/-- Five frames over 200 ms whose palm centroid moves +0.5 units on x and
+0.02 on y (the swipe scenario of the spec). -/
def swipeScenarioFrames : List FramePacket :=
  (List.range 5).map (fun (i : ℕ) =>
    ⟨some (openHandPts ((1 : ℚ)/8 * (i : ℚ)) ((1 : ℚ)/200 * (i : ℚ))),
     1000 + 50 * (i : ℤ)⟩)

/-- The landmark history those five frames leave in the buffer at the
moment `_detectSwipe` runs. -/
def swipeScenarioHistory : List HistEntry :=
  (List.range 5).map (fun (i : ℕ) =>
    ⟨openHandPts ((1 : ℚ)/8 * (i : ℚ)) ((1 : ℚ)/200 * (i : ℚ)), 1000 + 50 * (i : ℤ)⟩)

/-- Five diagonal frames with equal x and y displacement: velocities
land exactly in the ambiguous zone (velX = velY = 2.5). -/
def diagHistory : List HistEntry :=
  (List.range 5).map (fun (i : ℕ) =>
    ⟨openHandPts ((1 : ℚ)/8 * (i : ℚ)) ((1 : ℚ)/8 * (i : ℚ)), 1000 + 50 * (i : ℤ)⟩)

/-- An interpreter state holding the diagonal history. -/
def diagState : InterpState := ⟨diagHistory, none, GestureType.NONE⟩

/-- A vision frame of a perfect fist arriving at t = 600 ms. -/
def fistVision : VisionData := ⟨some true, some fistPts, 600⟩

/-- Orchestrator mid-cooldown whose interpreter started its fist dwell at
t = 0 (so `fistVision` classifies HIGH and stable). -/
def cooldownOrchState : OrchState :=
  ⟨⟨[], some 0, GestureType.NONE⟩, true, false⟩

/-- Orchestrator ready to approve: no cooldown, not muted, the fist dwell
started at t = 0 (so `fistVision` classifies HIGH and stable and the
approved branch executes the action). -/
def readyOrchState : OrchState :=
  ⟨⟨[], some 0, GestureType.NONE⟩, false, false⟩

end Fixtures

-- ===========================================================================
-- Theorems
-- ===========================================================================

open GestureInterpreter SafetyValidator OrchestratorAgent Fixtures

/-- The squared-distance representation used by `calculateFingerCurlsSq`
agrees with the JS `Math.sqrt` followed by a comparison against a positive
threshold. -/
theorem curlSq_lt_sq_iff_sqrt_lt (d c : ℚ) (hc : 0 < c) :
    d < c ^ 2 ↔ Real.sqrt (d : ℝ) < (c : ℝ) := by
  rw [Real.sqrt_lt' (by exact_mod_cast hc)]
  exact_mod_cast Iff.rfl

/-- C1: `SafetyValidator.validate` runs its checks in fixed priority
order, first failing check wins: camera invalid → CAMERA_INVALID; else
cooldown active → COOLDOWN_ACTIVE; else confidence ≠ HIGH →
LOW_CONFIDENCE; else unstable → GESTURE_UNSTABLE; else approved with
STABLE.  In particular, when all four failures hold simultaneously the
reason is CAMERA_INVALID. -/
theorem validate_priority_order (input : SafetyInput) :
    (input.cameraValid = false →
      validate input = ⟨false, ValidationReason.CAMERA_INVALID⟩) ∧
    (input.cameraValid = true → input.cooldownActive = true →
      validate input = ⟨false, ValidationReason.COOLDOWN_ACTIVE⟩) ∧
    (input.cameraValid = true → input.cooldownActive = false →
      input.confidence ≠ ConfidenceLevel.HIGH →
      validate input = ⟨false, ValidationReason.LOW_CONFIDENCE⟩) ∧
    (input.cameraValid = true → input.cooldownActive = false →
      input.confidence = ConfidenceLevel.HIGH → input.isStable = false →
      validate input = ⟨false, ValidationReason.GESTURE_UNSTABLE⟩) ∧
    (input.cameraValid = true → input.cooldownActive = false →
      input.confidence = ConfidenceLevel.HIGH → input.isStable = true →
      validate input = ⟨true, ValidationReason.STABLE⟩) ∧
    (input.cameraValid = false → input.cooldownActive = true →
      input.confidence ≠ ConfidenceLevel.HIGH → input.isStable = false →
      (validate input).reason = ValidationReason.CAMERA_INVALID) := by
  obtain ⟨g, c, s, cd, cam⟩ := input
  cases g <;> cases c <;> cases s <;> cases cd <;> cases cam <;> simp [validate]

/-- Witness for C1: with camera-invalid, cooldown-active, LOW confidence
and instability all present, the reason is CAMERA_INVALID. -/
theorem validate_priority_order_witness :
    validate ⟨GestureType.CLOSED_FIST, ConfidenceLevel.LOW, false, true, false⟩
      = ⟨false, ValidationReason.CAMERA_INVALID⟩ :=
  (validate_priority_order
    ⟨GestureType.CLOSED_FIST, ConfidenceLevel.LOW, false, true, false⟩).1 rfl

/-- C5: a missing input, an input without a points field, or one with
fewer than 21 points makes `GestureInterpreter.update` return
`{NONE, LOW, false}` and reset the fist dwell timer to null. -/
theorem update_invalid_input (landmarks : Option FramePacket) (now : ℤ)
    (st : InterpState)
    (h : landmarks = none ∨ ∃ lm, landmarks = some lm ∧
      (lm.points = none ∨ ∃ pts, lm.points = some pts ∧ pts.length < 21)) :
    (update landmarks now st).1 = noneResult ∧
    (update landmarks now st).2.fistStartTime = none := by
  rcases h with rfl | ⟨lm, rfl, h | ⟨pts, hp, hlen⟩⟩
  · simp [update]
  · simp [update, h]
  · simp only [update, hp]
    rw [if_pos hlen]
    exact ⟨rfl, rfl⟩

/-- Witness for C5: the missing-input case at the constructor state. -/
theorem update_invalid_input_witness :
    (update none 0 initialInterpState).1 = noneResult ∧
    (update none 0 initialInterpState).2.fistStartTime = none :=
  update_invalid_input none 0 initialInterpState (Or.inl rfl)

/-- C10: on an invalid input (missing, no points field, or fewer than 21
points) `update` leaves `landmarkHistory` untouched — the frame is not
appended and the buffer is not cleared — and resets only `fistStartTime`
and `lastGesture`. -/
theorem update_invalid_preserves_history (landmarks : Option FramePacket) (now : ℤ)
    (st : InterpState)
    (h : landmarks = none ∨ ∃ lm, landmarks = some lm ∧
      (lm.points = none ∨ ∃ pts, lm.points = some pts ∧ pts.length < 21)) :
    (update landmarks now st).2.landmarkHistory = st.landmarkHistory ∧
    (update landmarks now st).2 =
      { st with fistStartTime := none, lastGesture := GestureType.NONE } := by
  rcases h with rfl | ⟨lm, rfl, h | ⟨pts, hp, hlen⟩⟩
  · simp [update]
  · simp [update, h]
  · simp only [update, hp]
    rw [if_pos hlen]
    exact ⟨rfl, rfl⟩

/-- Witness for C10: a too-short frame against a state with history. -/
theorem update_invalid_preserves_history_witness :
    (update (some ⟨some [⟨0, 0, 0⟩], 5⟩) 0
        ⟨[defaultEntry], some 3, GestureType.CLOSED_FIST⟩).2.landmarkHistory
      = [defaultEntry] ∧
    (update (some ⟨some [⟨0, 0, 0⟩], 5⟩) 0
        ⟨[defaultEntry], some 3, GestureType.CLOSED_FIST⟩).2
      = ⟨[defaultEntry], none, GestureType.NONE⟩ :=
  update_invalid_preserves_history (some ⟨some [⟨0, 0, 0⟩], 5⟩) 0
    ⟨[defaultEntry], some 3, GestureType.CLOSED_FIST⟩
    (Or.inr ⟨_, rfl, Or.inr ⟨[⟨0, 0, 0⟩], rfl, by decide⟩⟩)

/-- C3 as stated is refuted on its "no action is executed on an
exceptional path" clause: an exception raised during step 6 after
`_executeAction` has returned — concretely, a registered listener
throwing inside the `cooldownStart` emission of `_startCooldown`
(line 544), still inside the try — reaches the catch with the action
already executed.  The catch publishes the generic ERROR state but rolls
nothing back: actionFired = true, the mute toggle and the cooldown flag
persist. -/
theorem exception_after_execution_counterexample :
    (processVisionDataCaught (processVisionDataBody (Except.error "listener threw")
      (some fistVision) 0 readyOrchState)).actionFired = true ∧
    (processVisionDataCaught (processVisionDataBody (Except.error "listener threw")
      (some fistVision) 0 readyOrchState)).orch.isMuted = true ∧
    (processVisionDataCaught (processVisionDataBody (Except.error "listener threw")
      (some fistVision) 0 readyOrchState)).orch.cooldownActive = true ∧
    (processVisionDataCaught (processVisionDataBody (Except.error "listener threw")
      (some fistVision) 0 readyOrchState)).state.systemStatus = SystemStatus.ERROR ∧
    (processVisionDataCaught (processVisionDataBody (Except.error "listener threw")
      (some fistVision) 0 readyOrchState)).state.userMessage
      = "System paused due to uncertainty" :=
  ⟨by with_unfolding_all decide, by with_unfolding_all decide,
   by with_unfolding_all decide, by with_unfolding_all decide,
   by with_unfolding_all decide⟩

/-- When no listener throws, the fallible try-body agrees with the total
`processVisionData` pipeline: no exception arises. -/
theorem processVisionDataBody_ok (visionData : Option VisionData) (now : ℤ)
    (st : OrchState) :
    processVisionDataBody (Except.ok ()) visionData now st
      = Except.ok (processVisionData visionData now st) := by
  rcases visionData with _ | d
  · rfl
  rcases hh : d.handDetected with _ | hd
  · simp [processVisionDataBody, processVisionData, hh]
  · simp only [processVisionDataBody, processVisionData, hh]
    split_ifs with h1 h2 h3 h4 h5 h6 <;> simp_all

/-- C3 amended: any exception raised during pipeline steps 1–6 is caught
by `processVisionData` and converted to an ERROR SystemState with
userMessage "System paused due to uncertainty"; that published state —
and every state built by `_createErrorState` — has safetyApproved = false
and actionState = NONE.  The catch does not undo mutations made before
the throw, so an action executed earlier in step 6 remains executed: in
particular, when no listener throws the pipeline completes normally,
while every exception escaping the modelled fallible call (the
cooldown-start emission, which runs after action execution) reaches the
catch with the action already executed. -/
theorem exception_failsafe_amended (t : Thrown) :
    processVisionDataCaught (Except.error t) =
      { state := createErrorState "System paused due to uncertainty",
        orch := t.orch, actionFired := t.actionFired } ∧
    (processVisionDataCaught (Except.error t)).state.systemStatus
      = SystemStatus.ERROR ∧
    (processVisionDataCaught (Except.error t)).state.userMessage
      = "System paused due to uncertainty" ∧
    (processVisionDataCaught (Except.error t)).state.safetyApproved = false ∧
    (processVisionDataCaught (Except.error t)).state.actionState
      = ActionState.NONE ∧
    (∀ msg, (createErrorState msg).safetyApproved = false ∧
      (createErrorState msg).actionState = ActionState.NONE) ∧
    (∀ visionData now st,
      processVisionDataBody (Except.ok ()) visionData now st
        = Except.ok (processVisionData visionData now st)) ∧
    (∀ emit visionData now st th,
      processVisionDataBody emit visionData now st = Except.error th →
      th.actionFired = true) := by
  refine ⟨rfl, rfl, ?_, rfl, rfl, fun msg => ⟨rfl, rfl⟩,
    processVisionDataBody_ok, ?_⟩
  · simp [processVisionDataCaught, createErrorState]
  · intro emit visionData now st th h
    rcases emit with e | u
    · rcases visionData with _ | d
      · simp [processVisionDataBody] at h
      rcases hh : d.handDetected with _ | hd
      · simp [processVisionDataBody, hh] at h
      · simp only [processVisionDataBody, hh] at h
        split_ifs at h
        simp at h
        subst h
        rfl
    · cases u
      rw [processVisionDataBody_ok] at h
      simp at h

/-- Witness for C3's amended claim: the concrete throw produced by a
listener failing during the cooldown-start emission of an approved fist
frame carries actionFired = true to the catch. -/
theorem exception_failsafe_amended_witness :
    (⟨"boom", ⟨⟨[⟨fistPts, 600⟩], some 0, GestureType.CLOSED_FIST⟩, true, true⟩,
      true⟩ : Thrown).actionFired = true :=
  (exception_failsafe_amended ⟨"", readyOrchState, false⟩).2.2.2.2.2.2.2
    (Except.error "boom") (some fistVision) 0 readyOrchState
    ⟨"boom", ⟨⟨[⟨fistPts, 600⟩], some 0, GestureType.CLOSED_FIST⟩, true, true⟩, true⟩
    (by with_unfolding_all rfl)

/-- C6: on a frame qualifying as a closed fist (all curl scores below the
threshold): an unset dwell timer is started at the frame's timestamp with
result `{CLOSED_FIST, LOW, false}`; otherwise, with elapsed = timestamp −
dwell start, the result is `{CLOSED_FIST, HIGH, true}` at ≥ 500 ms,
`{CLOSED_FIST, MEDIUM, false}` at 250–499 ms, `{CLOSED_FIST, LOW, false}`
below 250 ms; and HIGH confidence is reachable only with a running dwell
timer at ≥ 500 ms of elapsed qualifying pose. -/
theorem detectClosedFist_dwell_tiers (points : List Point) (timestamp now : ℤ)
    (st : InterpState) (curls : List ℚ)
    (hc : calculateFingerCurlsSq points = some curls)
    (hq : ∀ s ∈ curls, s < CURL_THRESHOLD ^ 2) :
    (st.fistStartTime = none →
      detectClosedFist points timestamp now st =
        (⟨GestureType.CLOSED_FIST, ConfidenceLevel.LOW, false⟩,
         { st with fistStartTime := some (tsOr timestamp now) })) ∧
    (∀ start, st.fistStartTime = some start →
      (tsOr timestamp now - start ≥ 500 →
        (detectClosedFist points timestamp now st).1 =
          ⟨GestureType.CLOSED_FIST, ConfidenceLevel.HIGH, true⟩) ∧
      (250 ≤ tsOr timestamp now - start → tsOr timestamp now - start < 500 →
        (detectClosedFist points timestamp now st).1 =
          ⟨GestureType.CLOSED_FIST, ConfidenceLevel.MEDIUM, false⟩) ∧
      (tsOr timestamp now - start < 250 →
        (detectClosedFist points timestamp now st).1 =
          ⟨GestureType.CLOSED_FIST, ConfidenceLevel.LOW, false⟩)) ∧
    ((detectClosedFist points timestamp now st).1.confidence = ConfidenceLevel.HIGH →
      ∃ start, st.fistStartTime = some start ∧ tsOr timestamp now - start ≥ 500) := by
  have hcond := not_not_intro hq
  refine ⟨?_, ?_, ?_⟩
  · intro hnone
    simp only [detectClosedFist, hc, hnone]
    rw [if_neg hcond]
  · intro start hstart
    refine ⟨fun h5 => ?_, fun h2 h5 => ?_, fun h2 => ?_⟩
    all_goals
      simp only [detectClosedFist, hc, hstart]
      rw [if_neg hcond]
      split_ifs with ha hb <;>
        first
          | rfl
          | (exfalso
             simp only [FIST_STABILITY_THRESHOLD_MS, ge_iff_le] at ha hb
             omega)
          | (exfalso
             simp only [FIST_STABILITY_THRESHOLD_MS, ge_iff_le] at ha
             omega)
  · intro hHigh
    rcases hs : st.fistStartTime with _ | start
    · exfalso
      simp only [detectClosedFist, hc, hs] at hHigh
      rw [if_neg hcond] at hHigh
      simp at hHigh
    · refine ⟨start, rfl, ?_⟩
      simp only [detectClosedFist, hc, hs] at hHigh
      rw [if_neg hcond] at hHigh
      by_contra hlt
      rw [if_neg (by simp only [FIST_STABILITY_THRESHOLD_MS, ge_iff_le]; omega)] at hHigh
      split_ifs at hHigh

/-- Witness for C6: a perfect fist (all curl scores 0) at t = 600 ms with
the dwell timer started at 0 classifies as HIGH and stable. -/
theorem detectClosedFist_dwell_tiers_witness :
    (detectClosedFist fistPts 600 0 ⟨[], some 0, GestureType.NONE⟩).1 =
      ⟨GestureType.CLOSED_FIST, ConfidenceLevel.HIGH, true⟩ :=
  ((detectClosedFist_dwell_tiers fistPts 600 0 ⟨[], some 0, GestureType.NONE⟩
    [0, 0, 0, 0, 0] (by with_unfolding_all decide) (by with_unfolding_all decide)).2.1
    0 rfl).1 (by decide)

/-- C7: whenever the computed axis velocities satisfy `|velX| ≤ 1.5·|velY|`
and `|velY| ≤ 1.5·|velX|` simultaneously (the ambiguous zone),
`_detectSwipe` returns `{NONE, LOW, false}` regardless of the magnitudes,
and leaves the interpreter state unchanged. -/
theorem detectSwipe_ambiguous_reject (st : InterpState) (velX velY : ℚ)
    (hv : swipeVelocities st.landmarkHistory = some (velX, velY))
    (hx : |velX| ≤ 1.5 * |velY|) (hy : |velY| ≤ 1.5 * |velX|) :
    (detectSwipe st).1 = noneResult ∧ (detectSwipe st).2 = st := by
  simp only [detectSwipe, hv]
  rw [if_neg (show ¬ |velX| > |velY| * 1.5 from by rw [mul_comm]; exact not_lt.mpr hx),
      if_neg (show ¬ |velY| > |velX| * 1.5 from by rw [mul_comm]; exact not_lt.mpr hy)]
  split_ifs <;> exact ⟨rfl, rfl⟩

/-- Witness for C7: a perfectly diagonal motion (velX = velY = 2.5, far
above the speed threshold) is rejected as NONE. -/
theorem detectSwipe_ambiguous_reject_witness :
    (detectSwipe diagState).1 = noneResult ∧ (detectSwipe diagState).2 = diagState :=
  detectSwipe_ambiguous_reject diagState (5/2) (5/2)
    (by with_unfolding_all decide) (by norm_num) (by norm_num)

/-- C2: while the orchestrator's cooldown flag is set, a processed frame
whose classified gesture has HIGH confidence and is stable is denied: the
published state has safetyApproved = false, actionState = COOLDOWN, and
the denial reason is COOLDOWN_ACTIVE (surfaced as its user message); the
window spans exactly `cooldownDuration` = 1500 ms, so 1000 ms after an
approval it is still open. -/
theorem cooldown_denies_qualifying_gesture (d : VisionData) (st : OrchState) (now : ℤ)
    (hhand : d.handDetected = some true) (hlm : d.landmarks ≠ none)
    (hcool : st.cooldownActive = true)
    (hgesture : (update (some ⟨d.landmarks, d.timestamp⟩) now st.interp).1.gesture
      ≠ GestureType.NONE)
    (hconf : (update (some ⟨d.landmarks, d.timestamp⟩) now st.interp).1.confidence
      = ConfidenceLevel.HIGH)
    (hstable : (update (some ⟨d.landmarks, d.timestamp⟩) now st.interp).1.isStable
      = true) :
    (processVisionData (some d) now st).state.safetyApproved = false ∧
    (processVisionData (some d) now st).state.actionState = ActionState.COOLDOWN ∧
    (processVisionData (some d) now st).state.userMessage
      = getReasonMessage ValidationReason.COOLDOWN_ACTIVE ∧
    (validate
      { gesture := (update (some ⟨d.landmarks, d.timestamp⟩) now st.interp).1.gesture,
        confidence := (update (some ⟨d.landmarks, d.timestamp⟩) now st.interp).1.confidence,
        isStable := (update (some ⟨d.landmarks, d.timestamp⟩) now st.interp).1.isStable,
        cooldownActive := st.cooldownActive,
        cameraValid := true }).reason = ValidationReason.COOLDOWN_ACTIVE ∧
    (processVisionData (some d) now st).actionFired = false ∧
    cooldownDuration = 1500 ∧
    (∀ t : ℤ, cooldownActiveAt t (t + 1000) = true) := by
  have hval : validate
      { gesture := (update (some ⟨d.landmarks, d.timestamp⟩) now st.interp).1.gesture,
        confidence := (update (some ⟨d.landmarks, d.timestamp⟩) now st.interp).1.confidence,
        isStable := (update (some ⟨d.landmarks, d.timestamp⟩) now st.interp).1.isStable,
        cooldownActive := st.cooldownActive,
        cameraValid := true } = ⟨false, ValidationReason.COOLDOWN_ACTIVE⟩ := by
    simp [validate, hcool]
  have hproc : processVisionData (some d) now st =
      { state := createActiveState
          (update (some ⟨d.landmarks, d.timestamp⟩) now st.interp).1.gesture
          (update (some ⟨d.landmarks, d.timestamp⟩) now st.interp).1.confidence
          false ActionState.COOLDOWN
          (getReasonMessage ValidationReason.COOLDOWN_ACTIVE),
        orch := { st with
          interp := (update (some ⟨d.landmarks, d.timestamp⟩) now st.interp).2 },
        actionFired := false } := by
    simp only [processVisionData, hhand]
    rw [if_neg (fun h => hlm h.2), if_neg (not_not_intro trivial),
      if_neg (fun h => h.elim hgesture (fun h2 => h2 hconf)), hval,
      if_pos (by simp), if_pos hcool]
  refine ⟨by simp [hproc, createActiveState], by simp [hproc, createActiveState],
    by simp [hproc, createActiveState], by rw [hval], by simp [hproc], rfl,
    fun t => ?_⟩
  simp only [cooldownActiveAt, cooldownDuration, decide_eq_true_eq]
  omega

/-- Witness for C2: a HIGH/stable fist frame arriving mid-cooldown is
denied with actionState COOLDOWN. -/
theorem cooldown_denies_qualifying_gesture_witness :
    (processVisionData (some fistVision) 0 cooldownOrchState).state.actionState
      = ActionState.COOLDOWN :=
  (cooldown_denies_qualifying_gesture fistVision cooldownOrchState 0 rfl
    (by with_unfolding_all decide) rfl (by with_unfolding_all decide)
    (by with_unfolding_all decide) (by with_unfolding_all decide)).2.1

/-- C4 as stated is refuted: a frame with handDetected = true and an
EMPTY landmarks array is not rejected as malformed.  `_validateVisionData`
accepts it (an empty array is still an array: in JS `![]` is falsy), so
the pipeline proceeds to gesture classification and publishes an ACTIVE
state, not ERROR. -/
theorem emptyLandmarks_accepted_counterexample :
    validateVisionData (some ⟨some true, some [], 100⟩) = true ∧
    (processVisionData (some ⟨some true, some [], 100⟩) 0
      initialOrchState).state.systemStatus = SystemStatus.ACTIVE ∧
    (processVisionData (some ⟨some true, some [], 100⟩) 0
      initialOrchState).state.systemStatus ≠ SystemStatus.ERROR :=
  ⟨by with_unfolding_all decide, by with_unfolding_all decide,
   by with_unfolding_all decide⟩

/-- C4 amended: a handDetected = true frame fails shape validation (and
the orchestrator publishes the "Invalid vision data" ERROR state) exactly
when its landmarks field is missing or not an array; with an EMPTY
landmarks array the frame passes validation and proceeds to gesture
classification, which returns NONE/LOW, so the published state is the
ACTIVE "Gesture unclear" state. -/
theorem visionData_shape_validation_amended (d : VisionData) (st : OrchState) (now : ℤ)
    (hhand : d.handDetected = some true) :
    (d.landmarks = none →
      validateVisionData (some d) = false ∧
      processVisionData (some d) now st =
        { state := createErrorState "Invalid vision data", orch := st,
          actionFired := false }) ∧
    (d.landmarks = some [] →
      validateVisionData (some d) = true ∧
      (processVisionData (some d) now st).state =
        createActiveState GestureType.NONE ConfidenceLevel.LOW false
          ActionState.NONE "Gesture unclear" ∧
      (processVisionData (some d) now st).state.systemStatus = SystemStatus.ACTIVE) := by
  constructor
  · intro h
    refine ⟨by simp [validateVisionData, hhand, h], ?_⟩
    simp only [processVisionData, hhand]
    rw [if_pos ⟨trivial, h⟩]
  · intro h
    refine ⟨by simp [validateVisionData, hhand, h], ?_, ?_⟩ <;>
      simp [processVisionData, hhand, h, update, noneResult, createActiveState]

/-- Witness for C4's amended claim: a missing landmarks field is rejected
while an empty landmarks array is accepted. -/
theorem visionData_shape_validation_amended_witness :
    validateVisionData (some ⟨some true, none, 100⟩) = false ∧
    validateVisionData (some ⟨some true, some [], 100⟩) = true :=
  ⟨((visionData_shape_validation_amended ⟨some true, none, 100⟩
      initialOrchState 0 rfl).1 rfl).1,
   ((visionData_shape_validation_amended ⟨some true, some [], 100⟩
      initialOrchState 0 rfl).2 rfl).1⟩

/-- C8: swipe confidence follows the tier formula (threshold 0.15
units/sec): dominant > 3× threshold with secondary < 0.3× dominant →
HIGH; dominant > 3× threshold otherwise → MEDIUM; dominant > 2× threshold
→ MEDIUM; else LOW.  Consequently the 5-frame scenario whose palm
centroid moves +0.5 on x and +0.02 on y over 200 ms has axis velocities
(2.5, 0.1) units/sec and yields SWIPE_RIGHT with HIGH confidence and
isStable = true, with the landmark history cleared on detection. -/
theorem swipe_confidence_tiers_and_scenario :
    (∀ dominantVel secondaryVel : ℚ,
      (dominantVel > SWIPE_VELOCITY_THRESHOLD * 3 →
        secondaryVel < dominantVel * 0.3 →
        calculateSwipeConfidence dominantVel secondaryVel = ConfidenceLevel.HIGH) ∧
      (dominantVel > SWIPE_VELOCITY_THRESHOLD * 3 →
        ¬ secondaryVel < dominantVel * 0.3 →
        calculateSwipeConfidence dominantVel secondaryVel = ConfidenceLevel.MEDIUM) ∧
      (¬ dominantVel > SWIPE_VELOCITY_THRESHOLD * 3 →
        dominantVel > SWIPE_VELOCITY_THRESHOLD * 2 →
        calculateSwipeConfidence dominantVel secondaryVel = ConfidenceLevel.MEDIUM) ∧
      (¬ dominantVel > SWIPE_VELOCITY_THRESHOLD * 3 →
        ¬ dominantVel > SWIPE_VELOCITY_THRESHOLD * 2 →
        calculateSwipeConfidence dominantVel secondaryVel = ConfidenceLevel.LOW)) ∧
    swipeVelocities swipeScenarioHistory = some (5/2, 1/10) ∧
    (runFrames swipeScenarioFrames 0 initialInterpState).1 =
      ⟨GestureType.SWIPE_RIGHT, ConfidenceLevel.HIGH, true⟩ ∧
    (runFrames swipeScenarioFrames 0 initialInterpState).2.landmarkHistory = [] := by
  refine ⟨fun dv sv =>
      ⟨fun h1 h2 => ?_, fun h1 h2 => ?_, fun h1 h2 => ?_, fun h1 h2 => ?_⟩,
    by with_unfolding_all decide, by with_unfolding_all decide,
    by with_unfolding_all decide⟩ <;>
  simp [calculateSwipeConfidence, h1, h2]

/-- Witness for C8: velocities (2.5, 0.1) sit in the HIGH tier. -/
theorem swipe_confidence_tiers_and_scenario_witness :
    calculateSwipeConfidence (5/2) (1/10) = ConfidenceLevel.HIGH :=
  (swipe_confidence_tiers_and_scenario.1 (5/2) (1/10)).1
    (by norm_num [SWIPE_VELOCITY_THRESHOLD]) (by norm_num)

/-- Helper: `_executeAction` reports `actionExecuted = true` for every
gesture other than NONE. -/
theorem executeAction_fires (gesture : GestureType) (isMuted : Bool)
    (h : gesture ≠ GestureType.NONE) :
    (executeAction gesture isMuted).1.actionExecuted = true := by
  cases gesture <;> simp_all [executeAction]

/-- C9: for every gesture in the five-element gesture set, `_executeAction`
returns actionExecuted = true; hence the safety-approved branch of
`processVisionData` always publishes actionState = EXECUTED, and the
READY action state is never published by frame processing. -/
theorem approved_branch_always_executed (g : GestureType) (m : Bool)
    (hg : g ≠ GestureType.NONE) :
    (executeAction g m).1.actionExecuted = true ∧
    (∀ visionData now st,
      ((processVisionData visionData now st).state.safetyApproved = true →
        (processVisionData visionData now st).state.actionState
          = ActionState.EXECUTED) ∧
      (processVisionData visionData now st).state.actionState
        ≠ ActionState.READY) := by
  refine ⟨executeAction_fires g m hg, fun visionData now st => ?_⟩
  rcases visionData with _ | d
  · simp [processVisionData, createErrorState]
  rcases hh : d.handDetected with _ | hd
  · simp [processVisionData, hh, createErrorState]
  simp only [processVisionData, hh]
  split_ifs with h1 h2 h3 h4 h5 h6 <;>
    simp_all [createErrorState, createIdleState, createActiveState,
      executeAction_fires]

/-- Witness for C9: a SWIPE_LEFT gesture executes. -/
theorem approved_branch_always_executed_witness :
    (executeAction GestureType.SWIPE_LEFT false).1.actionExecuted = true :=
  (approved_branch_always_executed GestureType.SWIPE_LEFT false (by decide)).1

end SIG
